import Mathlib

/-!
Shallow embedding of the LED-cube matrix controller (src/led-cube/stats-gl.cpp).

The embedding covers the parts of the program the claims are about:
the hand-rolled JSON field extractors (extract_json_string,
extract_json_number, extract_json_array_floats), the hex color parser
(parse_hex_color), the heat gradient (heat_colour_to_bg), the POST /update
handler mutating the target state (startRestApi), and the per-tick
rate-limited interpolation of the live state (main loop).

Conventions of the embedding:
- C++ float arithmetic is modelled with exact rationals; every operation
  involved (addition, multiplication, division by constants, clamping) is
  exact, so the claims' structural properties are faithfully represented.
- std::string is modelled as List Char, index arithmetic as Nat.
- std::stof is modelled for the decimal forms (optional sign, digits,
  optional fractional part, prefix parse with trailing junk ignored);
  exponent, hex-float, inf and nan spellings are not modelled since no
  claim and no concrete input here uses them.
- The mutable global target state is a TargetState record; the /update
  handler becomes the pure function update : TargetState -> body -> now ->
  UpdateResult x TargetState, the render-tick interpolation becomes
  tickInterpolate : LiveState -> TargetState -> dt -> LiveState.
-/

namespace StatsGL

/-- skip_ws character set of the C++ helper: space, newline, carriage return, tab. -/
def isWsChar (c : Char) : Bool :=
  c == ' ' || c == '\n' || c == '\r' || c == '\t'

/-- std::isspace (C locale) character set used by std::stof and the trim in
extract_json_array_floats: space, tab, newline, vertical tab, form feed, carriage return. -/
def isCSpace (c : Char) : Bool :=
  c == ' ' || c == '\t' || c == '\n' || c == '\x0b' || c == '\x0c' || c == '\r'

/-- ASCII decimal digit test (codes 48..57). -/
def isDigitCh (c : Char) : Bool :=
  48 ≤ c.toNat && c.toNat ≤ 57

/-- Whether the first list is a prefix of the second (used to model std::string::find). -/
def leadsWith : List Char → List Char → Bool
  | [], _ => true
  | _ :: _, [] => false
  | p :: ps, c :: cs => p == c && leadsWith ps cs

/-- Scan for the first index (counting from i) where pat occurs. -/
def strFindAux (pat : List Char) : List Char → ℕ → Option ℕ
  | [], i => if leadsWith pat [] then some i else none
  | c :: cs, i => if leadsWith pat (c :: cs) then some i else strFindAux pat cs (i + 1)

/-- Model of body.find(pat): index of the first occurrence of pat in body. -/
def strFind (body pat : List Char) : Option ℕ :=
  strFindAux pat body 0

/-- Scan for the first index (counting from i) holding character c. -/
def charFindAux (c : Char) : List Char → ℕ → Option ℕ
  | [], _ => none
  | b :: bs, i => if b == c then some i else charFindAux c bs (i + 1)

/-- Model of body.find(c, k): first index ≥ k where character c occurs. -/
def charFindFrom (body : List Char) (c : Char) (k : ℕ) : Option ℕ :=
  charFindAux c (body.drop k) k

/-- Model of skip_ws: advance index i past spaces, newlines, carriage returns and tabs. -/
def skipWs (body : List Char) (i : ℕ) : ℕ :=
  i + ((body.drop i).takeWhile isWsChar).length

/-- Accumulate the decimal value of a digit list (most significant first). -/
def digitsVal : List Char → ℕ → ℕ
  | [], acc => acc
  | c :: cs, acc => digitsVal cs (acc * 10 + (c.toNat - 48))

/-- Model of std::stof for decimal inputs: skip leading whitespace, optional
sign, integer digits, optional dot and fraction digits; fails (throws, here
none) when no digit was consumed; ignores trailing junk, as stof does.
Exponent/hex/inf/nan spellings are not modelled (unused by the program's claims). -/
def stofQ (s : List Char) : Option ℚ :=
  let s1 := s.dropWhile isCSpace
  let sgn : ℚ := match s1 with
    | '-' :: _ => -1
    | _ => 1
  let s2 : List Char := match s1 with
    | '-' :: r => r
    | '+' :: r => r
    | _ => s1
  let ds := s2.takeWhile isDigitCh
  let r2 := s2.drop ds.length
  let fs : List Char := match r2 with
    | '.' :: r3 => r3.takeWhile isDigitCh
    | _ => []
  if ds.length = 0 && fs.length = 0 then none
  else some (sgn * ((digitsVal ds 0 : ℚ) + (digitsVal fs 0 : ℚ) / (10 : ℚ) ^ fs.length))

/-- The quoted search pattern used by all three extractors: a double quote,
the key name, a double quote. -/
def quoteKey (key : List Char) : List Char :=
  '\"' :: (key ++ ['\"'])

/-- Model of extract_json_string: find the quoted key anywhere in the raw body,
find the next colon from the match position, skip whitespace, require an
opening double quote, return the characters up to the next double quote. -/
def extract_json_string (body key : List Char) : Option (List Char) :=
  match strFind body (quoteKey key) with
  | none => none
  | some k =>
    match charFindFrom body ':' k with
    | none => none
    | some colon =>
      let i := skipWs body (colon + 1)
      match body.drop i with
      | '\"' :: rest =>
        let inner := rest.takeWhile (fun c => c != '\"')
        if inner.length = rest.length then none else some inner
      | _ => none

/-- Model of extract_json_number: find the quoted key anywhere in the raw body,
find the next colon, skip whitespace, read characters until a comma, closing
brace, closing bracket, newline or carriage return, and run stof on the slice. -/
def extract_json_number (body key : List Char) : Option ℚ :=
  match strFind body (quoteKey key) with
  | none => none
  | some k =>
    match charFindFrom body ':' k with
    | none => none
    | some colon =>
      let i := skipWs body (colon + 1)
      let slice := (body.drop i).takeWhile
        (fun c => c != ',' && c != '\x7d' && c != ']' && c != '\n' && c != '\r')
      stofQ slice

/-- Split a character list at commas, the way repeated std::getline with a comma
delimiter does. getline drops a trailing empty field where splitting keeps it,
but such empty fields are skipped by the caller's emptiness check either way,
so plain splitting is an exact model of the loop's observable behavior. -/
def splitComma : List Char → List (List Char)
  | [] => [[]]
  | c :: cs =>
    if c == ',' then [] :: splitComma cs
    else
      match splitComma cs with
      | f :: fs => (c :: f) :: fs
      | [] => [[c]]

/-- Trim leading and trailing isspace characters, as the lambda-based erase
calls in extract_json_array_floats do. -/
def trimWs (v : List Char) : List Char :=
  ((v.dropWhile isCSpace).reverse.dropWhile isCSpace).reverse

/-- Outcome of extract_json_array_floats. The C++ function writes parsed values
directly into the caller's array as it goes, so a mid-parse stof exception
(return false) still leaves the already-parsed prefix written; noKey covers
the return-false paths that write nothing (missing key or brackets). -/
inductive SegParse
  | noKey
  | failed (writes : List ℚ)
  | ok (writes : List ℚ)
deriving DecidableEq

/-- The parse loop of extract_json_array_floats: for each comma-separated field
while fewer than maxN values are stored, trim it, skip it when empty, otherwise
stof it, aborting the whole parse on a stof failure but keeping prior writes. -/
def segLoop (maxN : ℕ) : List (List Char) → ℕ → List ℚ → SegParse
  | [], _, acc => SegParse.ok acc
  | v :: vs, idx, acc =>
    if maxN ≤ idx then SegParse.ok acc
    else
      let w := trimWs v
      if w.isEmpty then segLoop maxN vs idx acc
      else
        match stofQ w with
        | none => SegParse.failed acc
        | some q => segLoop maxN vs (idx + 1) (acc ++ [q])

/-- Model of extract_json_array_floats: find the quoted key, find the first
opening and closing square bracket from the match position, fail when missing
or inverted, then parse the comma-separated slice between them. -/
def extract_json_array_floats (body key : List Char) (maxN : ℕ) : SegParse :=
  match strFind body (quoteKey key) with
  | none => SegParse.noKey
  | some k =>
    match charFindFrom body '[' k, charFindFrom body ']' k with
    | some lb, some rb =>
      if rb ≤ lb then SegParse.noKey
      else segLoop maxN (splitComma ((body.drop (lb + 1)).take (rb - lb - 1))) 0 []
    | _, _ => SegParse.noKey

/-- Model of the hex2 lambda in parse_hex_color: value of one hex digit,
written over the character's ASCII code (48..57 digits, 97..102 lowercase,
65..70 uppercase); none plays the role of the C++ sentinel -1. -/
def hex2 (c : Char) : Option ℕ :=
  let n := c.toNat
  if 48 ≤ n ∧ n ≤ 57 then some (n - 48)
  else if 97 ≤ n ∧ n ≤ 102 then some (10 + (n - 97))
  else if 65 ≤ n ∧ n ≤ 70 then some (10 + (n - 65))
  else none

/-- The six-hex-digit stage of parse_hex_color, after the optional hash has
been stripped: require exactly six characters, convert each through hex2
(failing on the sentinel), and assemble every channel as (hi <<< 4) ||| lo
scaled by 255. The C++ computes the six digit values first and then tests all
six sentinels at once; this nested form short-circuits instead, which returns
none in exactly the same cases. -/
def hex6 (g : List Char) : Option (ℚ × ℚ × ℚ) :=
  match g with
  | [a1, a2, b1, b2, c1, c2] =>
    match hex2 a1 with
    | none => none
    | some r1 =>
      match hex2 a2 with
      | none => none
      | some r2 =>
        match hex2 b1 with
        | none => none
        | some g1 =>
          match hex2 b2 with
          | none => none
          | some g2 =>
            match hex2 c1 with
            | none => none
            | some v1 =>
              match hex2 c2 with
              | none => none
              | some v2 =>
                some (((r1 <<< 4 ||| r2 : ℕ) : ℚ) / 255,
                      ((g1 <<< 4 ||| g2 : ℕ) : ℚ) / 255,
                      ((v1 <<< 4 ||| v2 : ℕ) : ℚ) / 255)
  | _ => none

/-- Model of parse_hex_color: strip an optional leading hash, then parse
exactly six hex digits into an RGB triple over 255. -/
def parse_hex_color (hex : List Char) : Option (ℚ × ℚ × ℚ) :=
  match hex with
  | '#' :: rest => hex6 rest
  | _ => hex6 hex

/-- Model of compat::clamp, the ternary chain (v < lo) ? lo : (hi < v) ? hi : v. -/
def rclamp (v lo hi : ℚ) : ℚ :=
  if v < lo then lo else if hi < v then hi else v

/-- Model of heat_colour_to_bg: clamp the level into 0..100 and apply the
three-segment gradient with the literal constants of the source
(0.5 = 1/2, 0.4 = 2/5, 0.6 = 3/5). -/
def heat_colour_to_bg (colour01_100 : ℚ) : ℚ × ℚ × ℚ :=
  let c := rclamp colour01_100 0 100
  if c ≤ 33 then
    let t := c / 33
    (0, t * (1/2), 2/5 + t * (2/5))
  else if c ≤ 66 then
    let t := (c - 33) / 33
    (t, 3/5 + t * (2/5), 1 - t)
  else
    let t := (c - 66) / 34
    (1, 1 - t, 0)

/-- Recognized mode and geometry names plus the JSON keys of the handler. -/
def keyMode : List Char := "mode".toList

def keyColour : List Char := "colour".toList

def keyGeometry : List Char := "geometry".toList

def keySegments : List Char := "segments".toList

def keyWidth : List Char := "width".toList

def keyPercent : List Char := "percent".toList

def keyElementColor : List Char := "elementColor".toList

def keyBackgroundColor : List Char := "backgroundColor".toList

def strHeat : List Char := "heat".toList

def strRing : List Char := "ring".toList

def strCircle : List Char := "circle".toList

def strSquare : List Char := "square".toList

def strTriangle : List Char := "triangle".toList

def strX : List Char := "x".toList

/-- The target-state globals of the program (the t-prefixed family):
mode string, colour level, geometry id and name, ten segment slots,
element width, percent, both RGB colors, the explicit-color flags,
and the timestamp of the last accepted update. -/
structure TargetState where
  tmodeStr : List Char
  tcolourLevel : ℚ
  tgeometryMode : ℕ
  tgeomStr : List Char
  tsegment : List ℚ
  telementWidth : ℚ
  tpercent : ℚ
  telementColorRGB : ℚ × ℚ × ℚ
  tbackgroundColorRGB : ℚ × ℚ × ℚ
  thaveElementColor : Bool
  thaveBackgroundColor : Bool
  updateTime : ℚ
deriving DecidableEq

/-- Initial values of the globals at process start (updateTime = -10.0f). -/
def initState : TargetState :=
  { tmodeStr := strHeat
    tcolourLevel := 30
    tgeometryMode := 0
    tgeomStr := strRing
    tsegment := List.replicate 10 0
    telementWidth := 20
    tpercent := 1
    telementColorRGB := (1, 1, 1)
    tbackgroundColorRGB := (0, 0, 1)
    thaveElementColor := false
    thaveBackgroundColor := false
    updateTime := -10 }

/-- Step 1 of the handler body: mode field overwrites tmodeStr when present. -/
def applyModeF (b : List Char) (s : TargetState) : TargetState :=
  match extract_json_string b keyMode with
  | some m => { s with tmodeStr := m }
  | none => s

/-- Colour field: assigned to tcolourLevel unclamped when the number parses. -/
def applyColourF (b : List Char) (s : TargetState) : TargetState :=
  match extract_json_number b keyColour with
  | some c => { s with tcolourLevel := c }
  | none => s

/-- Geometry field: the five recognized names select a geometry id; any other
string leaves the stored geometry untouched (but, in the handler, still
counts toward the any flag). -/
def applyGeomF (b : List Char) (s : TargetState) : TargetState :=
  match extract_json_string b keyGeometry with
  | some g =>
    if g = strRing then { s with tgeometryMode := 0, tgeomStr := strRing }
    else if g = strCircle then { s with tgeometryMode := 1, tgeomStr := strCircle }
    else if g = strSquare then { s with tgeometryMode := 2, tgeomStr := strSquare }
    else if g = strTriangle then { s with tgeometryMode := 3, tgeomStr := strTriangle }
    else if g = strX then { s with tgeometryMode := 4, tgeomStr := strX }
    else s
  | none => s

/-- Write the parsed prefix over the front of the fixed-size segment array,
keeping the remaining slots (partial replacement, not zero-fill). -/
def overwriteSeg (old w : List ℚ) : List ℚ :=
  w ++ old.drop w.length

/-- Segments field: the extractor writes into tsegment even when it returns
false after a mid-parse failure; only the ok outcome counts toward any. -/
def applySegF (b : List Char) (s : TargetState) : TargetState :=
  match extract_json_array_floats b keySegments 10 with
  | SegParse.noKey => s
  | SegParse.failed w => { s with tsegment := overwriteSeg s.tsegment w }
  | SegParse.ok w => { s with tsegment := overwriteSeg s.tsegment w }

/-- Width field: clamped into 0..100 at acceptance. -/
def applyWidthF (b : List Char) (s : TargetState) : TargetState :=
  match extract_json_number b keyWidth with
  | some w => { s with telementWidth := rclamp w 0 100 }
  | none => s

/-- Percent field: clamped into 0..1 at acceptance. -/
def applyPctF (b : List Char) (s : TargetState) : TargetState :=
  match extract_json_number b keyPercent with
  | some p => { s with tpercent := rclamp p 0 1 }
  | none => s

/-- elementColor field: stored (and flagged) only when the hex string parses. -/
def applyElemF (b : List Char) (s : TargetState) : TargetState :=
  match extract_json_string b keyElementColor with
  | some hx =>
    match parse_hex_color hx with
    | some rgb => { s with telementColorRGB := rgb, thaveElementColor := true }
    | none => s
  | none => s

/-- backgroundColor field: stored (and flagged) only when the hex string parses. -/
def applyBgF (b : List Char) (s : TargetState) : TargetState :=
  match extract_json_string b keyBackgroundColor with
  | some hx =>
    match parse_hex_color hx with
    | some rgb => { s with tbackgroundColorRGB := rgb, thaveBackgroundColor := true }
    | none => s
  | none => s

/-- gotColour of the handler: the colour number parsed in this request. -/
def gotColourB (b : List Char) : Bool :=
  (extract_json_number b keyColour).isSome

/-- gotBackgroundColor of the handler: backgroundColor present and its hex parsed. -/
def gotBgB (b : List Char) : Bool :=
  match extract_json_string b keyBackgroundColor with
  | some hx => (parse_hex_color hx).isSome
  | none => false

/-- The elementColor analogue (sets any in the handler). -/
def gotElemB (b : List Char) : Bool :=
  match extract_json_string b keyElementColor with
  | some hx => (parse_hex_color hx).isSome
  | none => false

/-- Whether the segments extractor returned true (sets any in the handler). -/
def segOkB (b : List Char) : Bool :=
  match extract_json_array_floats b keySegments 10 with
  | SegParse.ok _ => true
  | _ => false

/-- The mode-enforcement block run after the field assignments, before the
any check: in heat mode force geometry to ring and the element color to
white, and, unless THIS request carried an explicit background color,
recompute the background from the heat gradient; otherwise (custom mode)
translate a legacy colour level into the background color when this request
carried colour but no explicit background color. -/
def applyEnforce (b : List Char) (s : TargetState) : TargetState :=
  if s.tmodeStr = strHeat then
    let base := { s with tgeometryMode := 0, tgeomStr := strRing,
                         telementColorRGB := ((1 : ℚ), (1 : ℚ), (1 : ℚ)),
                         thaveElementColor := true }
    if gotBgB b then base
    else { base with tbackgroundColorRGB := heat_colour_to_bg base.tcolourLevel,
                     thaveBackgroundColor := true }
  else
    if gotBgB b = false && gotColourB b then
      { s with tbackgroundColorRGB := heat_colour_to_bg s.tcolourLevel,
               thaveBackgroundColor := true }
    else s

/-- The whole mutation sequence of the POST /update handler, in source order:
mode, colour, geometry, segments, width, percent, elementColor,
backgroundColor, then the mode enforcement block. -/
def reconcile (b : List Char) (s : TargetState) : TargetState :=
  applyEnforce b (applyBgF b (applyElemF b (applyPctF b (applyWidthF b
    (applySegF b (applyGeomF b (applyColourF b (applyModeF b s))))))))

/-- Outcome of a POST /update call that passed authentication. -/
inductive UpdateResult
  | accepted
  | rejected
deriving DecidableEq

/-- The any flag as a function of the raw body: exactly the disjunction of the
eight conditions under which the handler sets any = true (note that a geometry
string sets it whether or not it names a known shape, while elementColor and
backgroundColor set it only when their hex value parses). -/
def hasAnyField (b : List Char) : Bool :=
  (extract_json_string b keyMode).isSome || gotColourB b ||
  (extract_json_string b keyGeometry).isSome || segOkB b ||
  (extract_json_number b keyWidth).isSome || (extract_json_number b keyPercent).isSome ||
  gotElemB b || gotBgB b

/-- The POST /update handler after authentication: run the mutation sequence,
then reject with no-valid-fields when no field set the any flag (the mutations
made so far, including the enforcement block, persist on the globals), or
accept and stamp the update time. -/
def update (s : TargetState) (b : List Char) (now : ℚ) : UpdateResult × TargetState :=
  let any1 := false || (extract_json_string b keyMode).isSome
  let any2 := any1 || gotColourB b
  let any3 := any2 || (extract_json_string b keyGeometry).isSome
  let any4 := any3 || segOkB b
  let any5 := any4 || (extract_json_number b keyWidth).isSome
  let any6 := any5 || (extract_json_number b keyPercent).isSome
  let any7 := any6 || gotElemB b
  let any8 := any7 || gotBgB b
  let s9 := reconcile b s
  if any8 then (UpdateResult.accepted, { s9 with updateTime := now })
  else (UpdateResult.rejected, s9)

/-- The live (rendered) globals mirrored by the render loop. -/
structure LiveState where
  colourLevel : ℚ
  segment : List ℚ
  geometryMode : ℕ
  modeStr : List Char
  elementWidth : ℚ
  percent : ℚ
  elementColorRGB : ℚ × ℚ × ℚ
  backgroundColorRGB : ℚ × ℚ × ℚ
  haveElementColor : Bool
  haveBackgroundColor : Bool
deriving DecidableEq

/-- ANIMSTEP, the scalar interpolation rate in units per second. -/
def ANIMSTEP : ℚ := 40

/-- One rate-limited interpolation assignment of the render loop:
x += clamp(target - x, -rate*dt, rate*dt). -/
def interpStep (live target rate dt : ℚ) : ℚ :=
  live + rclamp (target - live) (-(rate * dt)) (rate * dt)

/-- One render-loop tick over the state snapshot: clamp the elapsed time to
at most 0.1 s, chase every interpolated numeric field at ANIMSTEP (colour,
segments, width, percent) or at the color rate 2/s (RGB channels), and copy
the discrete fields instantly. -/
def tickInterpolate (ls : LiveState) (ts : TargetState) (dtRaw : ℚ) : LiveState :=
  let dt := rclamp dtRaw 0 (1/10)
  { colourLevel := interpStep ls.colourLevel ts.tcolourLevel ANIMSTEP dt
    segment := List.zipWith (fun l t => interpStep l t ANIMSTEP dt) ls.segment ts.tsegment
    geometryMode := ts.tgeometryMode
    modeStr := ts.tmodeStr
    elementWidth := interpStep ls.elementWidth ts.telementWidth ANIMSTEP dt
    percent := interpStep ls.percent ts.tpercent ANIMSTEP dt
    elementColorRGB :=
      (interpStep ls.elementColorRGB.1 ts.telementColorRGB.1 2 dt,
       interpStep ls.elementColorRGB.2.1 ts.telementColorRGB.2.1 2 dt,
       interpStep ls.elementColorRGB.2.2 ts.telementColorRGB.2.2 2 dt)
    backgroundColorRGB :=
      (interpStep ls.backgroundColorRGB.1 ts.tbackgroundColorRGB.1 2 dt,
       interpStep ls.backgroundColorRGB.2.1 ts.tbackgroundColorRGB.2.1 2 dt,
       interpStep ls.backgroundColorRGB.2.2 ts.tbackgroundColorRGB.2.2 2 dt)
    haveElementColor := ts.thaveElementColor
    haveBackgroundColor := ts.thaveBackgroundColor }

/-- Modelled from the claim wording of C1 (spec section 4.1): a field counts
as recognized only when its value parses for that field, and a geometry value
must name one of the five known shapes to count. This is the spec-side
counting, to be compared with the handler's hasAnyField. -/
def recognizedFieldSpec (b : List Char) : Bool :=
  (extract_json_string b keyMode).isSome || gotColourB b ||
  (match extract_json_string b keyGeometry with
   | some g => g = strRing || g = strCircle || g = strSquare || g = strTriangle || g = strX
   | none => false) ||
  segOkB b ||
  (extract_json_number b keyWidth).isSome || (extract_json_number b keyPercent).isSome ||
  gotElemB b || gotBgB b

/-- A color triple with every channel inside the declared range 0..1. -/
def rgb01 (c : ℚ × ℚ × ℚ) : Prop :=
  0 ≤ c.1 ∧ c.1 ≤ 1 ∧ 0 ≤ c.2.1 ∧ c.2.1 ≤ 1 ∧ 0 ≤ c.2.2 ∧ c.2.2 ≤ 1

instance (c : ℚ × ℚ × ℚ) : Decidable (rgb01 c) := by
  unfold rgb01; infer_instance

/-- Declared ranges for the target state fields other than the colour level:
width in 0..100, percent in 0..1, both colors channelwise in 0..1. -/
def InvWPC (s : TargetState) : Prop :=
  0 ≤ s.telementWidth ∧ s.telementWidth ≤ 100 ∧
  0 ≤ s.tpercent ∧ s.tpercent ≤ 1 ∧
  rgb01 s.telementColorRGB ∧ rgb01 s.tbackgroundColorRGB

instance (s : TargetState) : Decidable (InvWPC s) := by
  unfold InvWPC; infer_instance

/-- The same ranges on the live state's interpolated fields. -/
def LInvWPC (ls : LiveState) : Prop :=
  0 ≤ ls.elementWidth ∧ ls.elementWidth ≤ 100 ∧
  0 ≤ ls.percent ∧ ls.percent ≤ 1 ∧
  rgb01 ls.elementColorRGB ∧ rgb01 ls.backgroundColorRGB

instance (ls : LiveState) : Decidable (LInvWPC ls) := by
  unfold LInvWPC; infer_instance

/-- Raw body with a geometry value naming no known shape. -/
def bodyGeomBlob : List Char := "\x7b\"geometry\":\"blob\"\x7d".toList

/-- Raw body selecting heat mode together with an explicit background color. -/
def bodyHeatBg : List Char :=
  "\x7b\"mode\":\"heat\",\"backgroundColor\":\"#ff00ff\"\x7d".toList

/-- The empty raw body. -/
def bodyEmpty : List Char := []

/-- Raw body carrying an out-of-range colour level. -/
def bodyColour150 : List Char := "\x7b\"colour\":150\x7d".toList

/-- Raw body whose only JSON members are note (a string whose value is the
word colour, quoted) and width; the quoted occurrence of colour sits inside
the value position of note. -/
def bodyNoteColour : List Char := "\x7b\"note\":\"colour\",\"width\":55\x7d".toList

/-- The custom mode name. -/
def strCustom : List Char := "custom".toList

/-- Initial values of the live (non-target) globals at process start. -/
def initLive : LiveState :=
  { colourLevel := 30
    segment := List.replicate 10 0
    geometryMode := 0
    modeStr := strHeat
    elementWidth := 20
    percent := 1
    elementColorRGB := (1, 1, 1)
    backgroundColorRGB := (0, 0, 1)
    haveElementColor := false
    haveBackgroundColor := false }

/-- Raw legacy heat body with colour 15 and no background color. -/
def bodyHeat15 : List Char := "\x7b\"mode\":\"heat\",\"colour\":15\x7d".toList

/-- Raw body switching to custom mode only. -/
def bodyCustomMode : List Char := "\x7b\"mode\":\"custom\"\x7d".toList

/-- Raw custom body carrying only a legacy colour level. -/
def bodyCustom80 : List Char := "\x7b\"mode\":\"custom\",\"colour\":80\x7d".toList

/-- Raw body carrying only a width, neither colour nor a background color. -/
def bodyWidthOnly : List Char := "\x7b\"width\":10\x7d".toList

/-! Projection lemmas: which target-state fields each handler step leaves alone. -/

@[simp] theorem applyModeF_tcolourLevel (b : List Char) (s : TargetState) :
    (applyModeF b s).tcolourLevel = s.tcolourLevel := by
  unfold applyModeF; cases extract_json_string b keyMode <;> rfl

@[simp] theorem applyModeF_telementWidth (b : List Char) (s : TargetState) :
    (applyModeF b s).telementWidth = s.telementWidth := by
  unfold applyModeF; cases extract_json_string b keyMode <;> rfl

@[simp] theorem applyModeF_tpercent (b : List Char) (s : TargetState) :
    (applyModeF b s).tpercent = s.tpercent := by
  unfold applyModeF; cases extract_json_string b keyMode <;> rfl

@[simp] theorem applyModeF_telementColorRGB (b : List Char) (s : TargetState) :
    (applyModeF b s).telementColorRGB = s.telementColorRGB := by
  unfold applyModeF; cases extract_json_string b keyMode <;> rfl

@[simp] theorem applyModeF_tbackgroundColorRGB (b : List Char) (s : TargetState) :
    (applyModeF b s).tbackgroundColorRGB = s.tbackgroundColorRGB := by
  unfold applyModeF; cases extract_json_string b keyMode <;> rfl

@[simp] theorem applyModeF_thaveBackgroundColor (b : List Char) (s : TargetState) :
    (applyModeF b s).thaveBackgroundColor = s.thaveBackgroundColor := by
  unfold applyModeF; cases extract_json_string b keyMode <;> rfl

@[simp] theorem applyModeF_updateTime (b : List Char) (s : TargetState) :
    (applyModeF b s).updateTime = s.updateTime := by
  unfold applyModeF; cases extract_json_string b keyMode <;> rfl

@[simp] theorem applyColourF_tmodeStr (b : List Char) (s : TargetState) :
    (applyColourF b s).tmodeStr = s.tmodeStr := by
  unfold applyColourF; cases extract_json_number b keyColour <;> rfl

@[simp] theorem applyColourF_telementWidth (b : List Char) (s : TargetState) :
    (applyColourF b s).telementWidth = s.telementWidth := by
  unfold applyColourF; cases extract_json_number b keyColour <;> rfl

@[simp] theorem applyColourF_tpercent (b : List Char) (s : TargetState) :
    (applyColourF b s).tpercent = s.tpercent := by
  unfold applyColourF; cases extract_json_number b keyColour <;> rfl

@[simp] theorem applyColourF_telementColorRGB (b : List Char) (s : TargetState) :
    (applyColourF b s).telementColorRGB = s.telementColorRGB := by
  unfold applyColourF; cases extract_json_number b keyColour <;> rfl

@[simp] theorem applyColourF_tbackgroundColorRGB (b : List Char) (s : TargetState) :
    (applyColourF b s).tbackgroundColorRGB = s.tbackgroundColorRGB := by
  unfold applyColourF; cases extract_json_number b keyColour <;> rfl

@[simp] theorem applyColourF_thaveBackgroundColor (b : List Char) (s : TargetState) :
    (applyColourF b s).thaveBackgroundColor = s.thaveBackgroundColor := by
  unfold applyColourF; cases extract_json_number b keyColour <;> rfl

@[simp] theorem applyColourF_updateTime (b : List Char) (s : TargetState) :
    (applyColourF b s).updateTime = s.updateTime := by
  unfold applyColourF; cases extract_json_number b keyColour <;> rfl

@[simp] theorem applyGeomF_tmodeStr (b : List Char) (s : TargetState) :
    (applyGeomF b s).tmodeStr = s.tmodeStr := by
  unfold applyGeomF
  cases extract_json_string b keyGeometry with
  | none => rfl
  | some g => dsimp only; split_ifs <;> rfl

@[simp] theorem applyGeomF_tcolourLevel (b : List Char) (s : TargetState) :
    (applyGeomF b s).tcolourLevel = s.tcolourLevel := by
  unfold applyGeomF
  cases extract_json_string b keyGeometry with
  | none => rfl
  | some g => dsimp only; split_ifs <;> rfl

@[simp] theorem applyGeomF_telementWidth (b : List Char) (s : TargetState) :
    (applyGeomF b s).telementWidth = s.telementWidth := by
  unfold applyGeomF
  cases extract_json_string b keyGeometry with
  | none => rfl
  | some g => dsimp only; split_ifs <;> rfl

@[simp] theorem applyGeomF_tpercent (b : List Char) (s : TargetState) :
    (applyGeomF b s).tpercent = s.tpercent := by
  unfold applyGeomF
  cases extract_json_string b keyGeometry with
  | none => rfl
  | some g => dsimp only; split_ifs <;> rfl

@[simp] theorem applyGeomF_telementColorRGB (b : List Char) (s : TargetState) :
    (applyGeomF b s).telementColorRGB = s.telementColorRGB := by
  unfold applyGeomF
  cases extract_json_string b keyGeometry with
  | none => rfl
  | some g => dsimp only; split_ifs <;> rfl

@[simp] theorem applyGeomF_tbackgroundColorRGB (b : List Char) (s : TargetState) :
    (applyGeomF b s).tbackgroundColorRGB = s.tbackgroundColorRGB := by
  unfold applyGeomF
  cases extract_json_string b keyGeometry with
  | none => rfl
  | some g => dsimp only; split_ifs <;> rfl

@[simp] theorem applyGeomF_thaveBackgroundColor (b : List Char) (s : TargetState) :
    (applyGeomF b s).thaveBackgroundColor = s.thaveBackgroundColor := by
  unfold applyGeomF
  cases extract_json_string b keyGeometry with
  | none => rfl
  | some g => dsimp only; split_ifs <;> rfl

@[simp] theorem applyGeomF_updateTime (b : List Char) (s : TargetState) :
    (applyGeomF b s).updateTime = s.updateTime := by
  unfold applyGeomF
  cases extract_json_string b keyGeometry with
  | none => rfl
  | some g => dsimp only; split_ifs <;> rfl

@[simp] theorem applySegF_tmodeStr (b : List Char) (s : TargetState) :
    (applySegF b s).tmodeStr = s.tmodeStr := by
  unfold applySegF; cases extract_json_array_floats b keySegments 10 <;> rfl

@[simp] theorem applySegF_tcolourLevel (b : List Char) (s : TargetState) :
    (applySegF b s).tcolourLevel = s.tcolourLevel := by
  unfold applySegF; cases extract_json_array_floats b keySegments 10 <;> rfl

@[simp] theorem applySegF_telementWidth (b : List Char) (s : TargetState) :
    (applySegF b s).telementWidth = s.telementWidth := by
  unfold applySegF; cases extract_json_array_floats b keySegments 10 <;> rfl

@[simp] theorem applySegF_tpercent (b : List Char) (s : TargetState) :
    (applySegF b s).tpercent = s.tpercent := by
  unfold applySegF; cases extract_json_array_floats b keySegments 10 <;> rfl

@[simp] theorem applySegF_telementColorRGB (b : List Char) (s : TargetState) :
    (applySegF b s).telementColorRGB = s.telementColorRGB := by
  unfold applySegF; cases extract_json_array_floats b keySegments 10 <;> rfl

@[simp] theorem applySegF_tbackgroundColorRGB (b : List Char) (s : TargetState) :
    (applySegF b s).tbackgroundColorRGB = s.tbackgroundColorRGB := by
  unfold applySegF; cases extract_json_array_floats b keySegments 10 <;> rfl

@[simp] theorem applySegF_thaveBackgroundColor (b : List Char) (s : TargetState) :
    (applySegF b s).thaveBackgroundColor = s.thaveBackgroundColor := by
  unfold applySegF; cases extract_json_array_floats b keySegments 10 <;> rfl

@[simp] theorem applySegF_updateTime (b : List Char) (s : TargetState) :
    (applySegF b s).updateTime = s.updateTime := by
  unfold applySegF; cases extract_json_array_floats b keySegments 10 <;> rfl

@[simp] theorem applyWidthF_tmodeStr (b : List Char) (s : TargetState) :
    (applyWidthF b s).tmodeStr = s.tmodeStr := by
  unfold applyWidthF; cases extract_json_number b keyWidth <;> rfl

@[simp] theorem applyWidthF_tcolourLevel (b : List Char) (s : TargetState) :
    (applyWidthF b s).tcolourLevel = s.tcolourLevel := by
  unfold applyWidthF; cases extract_json_number b keyWidth <;> rfl

@[simp] theorem applyWidthF_tpercent (b : List Char) (s : TargetState) :
    (applyWidthF b s).tpercent = s.tpercent := by
  unfold applyWidthF; cases extract_json_number b keyWidth <;> rfl

@[simp] theorem applyWidthF_telementColorRGB (b : List Char) (s : TargetState) :
    (applyWidthF b s).telementColorRGB = s.telementColorRGB := by
  unfold applyWidthF; cases extract_json_number b keyWidth <;> rfl

@[simp] theorem applyWidthF_tbackgroundColorRGB (b : List Char) (s : TargetState) :
    (applyWidthF b s).tbackgroundColorRGB = s.tbackgroundColorRGB := by
  unfold applyWidthF; cases extract_json_number b keyWidth <;> rfl

@[simp] theorem applyWidthF_thaveBackgroundColor (b : List Char) (s : TargetState) :
    (applyWidthF b s).thaveBackgroundColor = s.thaveBackgroundColor := by
  unfold applyWidthF; cases extract_json_number b keyWidth <;> rfl

@[simp] theorem applyWidthF_updateTime (b : List Char) (s : TargetState) :
    (applyWidthF b s).updateTime = s.updateTime := by
  unfold applyWidthF; cases extract_json_number b keyWidth <;> rfl

@[simp] theorem applyPctF_tmodeStr (b : List Char) (s : TargetState) :
    (applyPctF b s).tmodeStr = s.tmodeStr := by
  unfold applyPctF; cases extract_json_number b keyPercent <;> rfl

@[simp] theorem applyPctF_tcolourLevel (b : List Char) (s : TargetState) :
    (applyPctF b s).tcolourLevel = s.tcolourLevel := by
  unfold applyPctF; cases extract_json_number b keyPercent <;> rfl

@[simp] theorem applyPctF_telementWidth (b : List Char) (s : TargetState) :
    (applyPctF b s).telementWidth = s.telementWidth := by
  unfold applyPctF; cases extract_json_number b keyPercent <;> rfl

@[simp] theorem applyPctF_telementColorRGB (b : List Char) (s : TargetState) :
    (applyPctF b s).telementColorRGB = s.telementColorRGB := by
  unfold applyPctF; cases extract_json_number b keyPercent <;> rfl

@[simp] theorem applyPctF_tbackgroundColorRGB (b : List Char) (s : TargetState) :
    (applyPctF b s).tbackgroundColorRGB = s.tbackgroundColorRGB := by
  unfold applyPctF; cases extract_json_number b keyPercent <;> rfl

@[simp] theorem applyPctF_thaveBackgroundColor (b : List Char) (s : TargetState) :
    (applyPctF b s).thaveBackgroundColor = s.thaveBackgroundColor := by
  unfold applyPctF; cases extract_json_number b keyPercent <;> rfl

@[simp] theorem applyPctF_updateTime (b : List Char) (s : TargetState) :
    (applyPctF b s).updateTime = s.updateTime := by
  unfold applyPctF; cases extract_json_number b keyPercent <;> rfl

@[simp] theorem applyElemF_tmodeStr (b : List Char) (s : TargetState) :
    (applyElemF b s).tmodeStr = s.tmodeStr := by
  unfold applyElemF
  cases extract_json_string b keyElementColor with
  | none => rfl
  | some hx => dsimp only; cases parse_hex_color hx <;> rfl

@[simp] theorem applyElemF_tcolourLevel (b : List Char) (s : TargetState) :
    (applyElemF b s).tcolourLevel = s.tcolourLevel := by
  unfold applyElemF
  cases extract_json_string b keyElementColor with
  | none => rfl
  | some hx => dsimp only; cases parse_hex_color hx <;> rfl

@[simp] theorem applyElemF_telementWidth (b : List Char) (s : TargetState) :
    (applyElemF b s).telementWidth = s.telementWidth := by
  unfold applyElemF
  cases extract_json_string b keyElementColor with
  | none => rfl
  | some hx => dsimp only; cases parse_hex_color hx <;> rfl

@[simp] theorem applyElemF_tpercent (b : List Char) (s : TargetState) :
    (applyElemF b s).tpercent = s.tpercent := by
  unfold applyElemF
  cases extract_json_string b keyElementColor with
  | none => rfl
  | some hx => dsimp only; cases parse_hex_color hx <;> rfl

@[simp] theorem applyElemF_tbackgroundColorRGB (b : List Char) (s : TargetState) :
    (applyElemF b s).tbackgroundColorRGB = s.tbackgroundColorRGB := by
  unfold applyElemF
  cases extract_json_string b keyElementColor with
  | none => rfl
  | some hx => dsimp only; cases parse_hex_color hx <;> rfl

@[simp] theorem applyElemF_thaveBackgroundColor (b : List Char) (s : TargetState) :
    (applyElemF b s).thaveBackgroundColor = s.thaveBackgroundColor := by
  unfold applyElemF
  cases extract_json_string b keyElementColor with
  | none => rfl
  | some hx => dsimp only; cases parse_hex_color hx <;> rfl

@[simp] theorem applyElemF_updateTime (b : List Char) (s : TargetState) :
    (applyElemF b s).updateTime = s.updateTime := by
  unfold applyElemF
  cases extract_json_string b keyElementColor with
  | none => rfl
  | some hx => dsimp only; cases parse_hex_color hx <;> rfl

@[simp] theorem applyBgF_tmodeStr (b : List Char) (s : TargetState) :
    (applyBgF b s).tmodeStr = s.tmodeStr := by
  unfold applyBgF
  cases extract_json_string b keyBackgroundColor with
  | none => rfl
  | some hx => dsimp only; cases parse_hex_color hx <;> rfl

@[simp] theorem applyBgF_tcolourLevel (b : List Char) (s : TargetState) :
    (applyBgF b s).tcolourLevel = s.tcolourLevel := by
  unfold applyBgF
  cases extract_json_string b keyBackgroundColor with
  | none => rfl
  | some hx => dsimp only; cases parse_hex_color hx <;> rfl

@[simp] theorem applyBgF_telementWidth (b : List Char) (s : TargetState) :
    (applyBgF b s).telementWidth = s.telementWidth := by
  unfold applyBgF
  cases extract_json_string b keyBackgroundColor with
  | none => rfl
  | some hx => dsimp only; cases parse_hex_color hx <;> rfl

@[simp] theorem applyBgF_tpercent (b : List Char) (s : TargetState) :
    (applyBgF b s).tpercent = s.tpercent := by
  unfold applyBgF
  cases extract_json_string b keyBackgroundColor with
  | none => rfl
  | some hx => dsimp only; cases parse_hex_color hx <;> rfl

@[simp] theorem applyBgF_telementColorRGB (b : List Char) (s : TargetState) :
    (applyBgF b s).telementColorRGB = s.telementColorRGB := by
  unfold applyBgF
  cases extract_json_string b keyBackgroundColor with
  | none => rfl
  | some hx => dsimp only; cases parse_hex_color hx <;> rfl

@[simp] theorem applyBgF_updateTime (b : List Char) (s : TargetState) :
    (applyBgF b s).updateTime = s.updateTime := by
  unfold applyBgF
  cases extract_json_string b keyBackgroundColor with
  | none => rfl
  | some hx => dsimp only; cases parse_hex_color hx <;> rfl

@[simp] theorem applyEnforce_tmodeStr (b : List Char) (s : TargetState) :
    (applyEnforce b s).tmodeStr = s.tmodeStr := by
  unfold applyEnforce; dsimp only; split_ifs <;> rfl

@[simp] theorem applyEnforce_tcolourLevel (b : List Char) (s : TargetState) :
    (applyEnforce b s).tcolourLevel = s.tcolourLevel := by
  unfold applyEnforce; dsimp only; split_ifs <;> rfl

@[simp] theorem applyEnforce_telementWidth (b : List Char) (s : TargetState) :
    (applyEnforce b s).telementWidth = s.telementWidth := by
  unfold applyEnforce; dsimp only; split_ifs <;> rfl

@[simp] theorem applyEnforce_tpercent (b : List Char) (s : TargetState) :
    (applyEnforce b s).tpercent = s.tpercent := by
  unfold applyEnforce; dsimp only; split_ifs <;> rfl

@[simp] theorem applyEnforce_updateTime (b : List Char) (s : TargetState) :
    (applyEnforce b s).updateTime = s.updateTime := by
  unfold applyEnforce; dsimp only; split_ifs <;> rfl

/-! Identity and characterization lemmas for the handler steps. -/

theorem isSome_false_none {A : Type} {o : Option A} (h : o.isSome = false) : o = none := by
  cases o with
  | none => rfl
  | some v => simp at h

theorem applyModeF_id (b : List Char) (s : TargetState)
    (h : extract_json_string b keyMode = none) : applyModeF b s = s := by
  unfold applyModeF; rw [h]

theorem applyColourF_id (b : List Char) (s : TargetState)
    (h : extract_json_number b keyColour = none) : applyColourF b s = s := by
  unfold applyColourF; rw [h]

theorem applyGeomF_id (b : List Char) (s : TargetState)
    (h : extract_json_string b keyGeometry = none) : applyGeomF b s = s := by
  unfold applyGeomF; rw [h]

theorem applySegF_id (b : List Char) (s : TargetState)
    (h : extract_json_array_floats b keySegments 10 = SegParse.noKey) :
    applySegF b s = s := by
  unfold applySegF; rw [h]

theorem applyWidthF_id (b : List Char) (s : TargetState)
    (h : extract_json_number b keyWidth = none) : applyWidthF b s = s := by
  unfold applyWidthF; rw [h]

theorem applyPctF_id (b : List Char) (s : TargetState)
    (h : extract_json_number b keyPercent = none) : applyPctF b s = s := by
  unfold applyPctF; rw [h]

theorem applyElemF_id (b : List Char) (s : TargetState)
    (h : gotElemB b = false) : applyElemF b s = s := by
  unfold gotElemB at h
  unfold applyElemF
  cases hE : extract_json_string b keyElementColor with
  | none => rfl
  | some hx =>
    rw [hE] at h
    dsimp only at h ⊢
    cases hP : parse_hex_color hx with
    | none => rfl
    | some rgb => rw [hP] at h; simp at h

theorem applyBgF_id (b : List Char) (s : TargetState)
    (h : gotBgB b = false) : applyBgF b s = s := by
  unfold gotBgB at h
  unfold applyBgF
  cases hE : extract_json_string b keyBackgroundColor with
  | none => rfl
  | some hx =>
    rw [hE] at h
    dsimp only at h ⊢
    cases hP : parse_hex_color hx with
    | none => rfl
    | some rgb => rw [hP] at h; simp at h

theorem applyEnforce_id (b : List Char) (s : TargetState)
    (h1 : s.tmodeStr ≠ strHeat) (h2 : gotColourB b = false) :
    applyEnforce b s = s := by
  unfold applyEnforce
  rw [if_neg h1, h2]
  simp

theorem applyColourF_set (b : List Char) (s : TargetState) (c : ℚ)
    (h : extract_json_number b keyColour = some c) :
    (applyColourF b s).tcolourLevel = c := by
  unfold applyColourF; rw [h]

theorem applyBgF_got (b : List Char) (s : TargetState) (hx : List Char)
    (rgb : ℚ × ℚ × ℚ) (h1 : extract_json_string b keyBackgroundColor = some hx)
    (h2 : parse_hex_color hx = some rgb) :
    (applyBgF b s).tbackgroundColorRGB = rgb ∧ (applyBgF b s).thaveBackgroundColor = true := by
  unfold applyBgF; rw [h1]; dsimp only; rw [h2]; exact ⟨rfl, rfl⟩

theorem gotBgB_of_parse (b : List Char) (hx : List Char) (rgb : ℚ × ℚ × ℚ)
    (h1 : extract_json_string b keyBackgroundColor = some hx)
    (h2 : parse_hex_color hx = some rgb) : gotBgB b = true := by
  unfold gotBgB; rw [h1]; dsimp only; rw [h2]; rfl

theorem applyEnforce_heat (b : List Char) (s : TargetState)
    (h : s.tmodeStr = strHeat) :
    (applyEnforce b s).tgeometryMode = 0 ∧ (applyEnforce b s).tgeomStr = strRing ∧
    (applyEnforce b s).telementColorRGB = ((1 : ℚ), (1 : ℚ), (1 : ℚ)) ∧
    (applyEnforce b s).thaveElementColor = true := by
  unfold applyEnforce
  rw [if_pos h]
  dsimp only
  split_ifs <;> exact ⟨rfl, rfl, rfl, rfl⟩

theorem applyEnforce_heat_nobg (b : List Char) (s : TargetState)
    (h : s.tmodeStr = strHeat) (hbg : gotBgB b = false) :
    (applyEnforce b s).tbackgroundColorRGB = heat_colour_to_bg s.tcolourLevel ∧
    (applyEnforce b s).thaveBackgroundColor = true := by
  unfold applyEnforce
  rw [if_pos h]
  dsimp only
  rw [hbg]
  exact ⟨rfl, rfl⟩

theorem applyEnforce_heat_gotbg (b : List Char) (s : TargetState)
    (h : s.tmodeStr = strHeat) (hbg : gotBgB b = true) :
    (applyEnforce b s).tbackgroundColorRGB = s.tbackgroundColorRGB ∧
    (applyEnforce b s).thaveBackgroundColor = s.thaveBackgroundColor := by
  unfold applyEnforce
  rw [if_pos h]
  dsimp only
  rw [hbg]
  exact ⟨rfl, rfl⟩

theorem applyEnforce_custom_colour (b : List Char) (s : TargetState)
    (h : s.tmodeStr ≠ strHeat) (hbg : gotBgB b = false) (hc : gotColourB b = true) :
    (applyEnforce b s).tbackgroundColorRGB = heat_colour_to_bg s.tcolourLevel ∧
    (applyEnforce b s).thaveBackgroundColor = true := by
  unfold applyEnforce
  rw [if_neg h, hbg, hc]
  exact ⟨rfl, rfl⟩

theorem applyEnforce_custom_nobg (b : List Char) (s : TargetState)
    (h : s.tmodeStr ≠ strHeat) (hbg : gotBgB b = false) (hc : gotColourB b = false) :
    (applyEnforce b s).tbackgroundColorRGB = s.tbackgroundColorRGB := by
  unfold applyEnforce
  rw [if_neg h, hbg, hc]
  rfl

/-! Decomposition of the update handler. -/

theorem update_def (s : TargetState) (b : List Char) (now : ℚ) :
    update s b now =
      (if hasAnyField b then
        (UpdateResult.accepted, { reconcile b s with updateTime := now })
       else (UpdateResult.rejected, reconcile b s)) := by
  simp only [update, hasAnyField, Bool.false_or]

theorem update_fst_eq (s : TargetState) (b : List Char) (now : ℚ) :
    (update s b now).fst =
      (if hasAnyField b then UpdateResult.accepted else UpdateResult.rejected) := by
  rw [update_def]; split <;> rfl

theorem update_snd_eq (s : TargetState) (b : List Char) (now : ℚ) :
    (update s b now).snd =
      (if hasAnyField b then { reconcile b s with updateTime := now }
       else reconcile b s) := by
  rw [update_def]; split <;> rfl

theorem update_rejected_iff (s : TargetState) (b : List Char) (now : ℚ) :
    (update s b now).fst = UpdateResult.rejected ↔ hasAnyField b = false := by
  rw [update_fst_eq]
  cases h : hasAnyField b <;> simp

theorem hasAnyField_false_parts (b : List Char) (h : hasAnyField b = false) :
    extract_json_string b keyMode = none ∧ gotColourB b = false ∧
    extract_json_string b keyGeometry = none ∧ segOkB b = false ∧
    extract_json_number b keyWidth = none ∧ extract_json_number b keyPercent = none ∧
    gotElemB b = false ∧ gotBgB b = false := by
  unfold hasAnyField at h
  simp only [Bool.or_eq_false_iff] at h
  exact ⟨isSome_false_none h.1.1.1.1.1.1.1, h.1.1.1.1.1.1.2,
         isSome_false_none h.1.1.1.1.1.2, h.1.1.1.1.2,
         isSome_false_none h.1.1.1.2, isSome_false_none h.1.1.2, h.1.2, h.2⟩

/-! Arithmetic facts about clamping, the interpolation step, the hex parser
and the heat gradient. -/

theorem rclamp_mem (v lo hi : ℚ) (h : lo ≤ hi) :
    lo ≤ rclamp v lo hi ∧ rclamp v lo hi ≤ hi := by
  unfold rclamp; split_ifs <;> constructor <;> linarith

theorem interp_dist (l t rate dt : ℚ) (hr : 0 ≤ rate) (hd : 0 ≤ dt) :
    |interpStep l t rate dt - l| ≤ rate * dt := by
  have hs : 0 ≤ rate * dt := mul_nonneg hr hd
  unfold interpStep rclamp
  split_ifs <;> rw [abs_le] <;> constructor <;> linarith

theorem interp_between (l t rate dt : ℚ) (hr : 0 ≤ rate) (hd : 0 ≤ dt) :
    min l t ≤ interpStep l t rate dt ∧ interpStep l t rate dt ≤ max l t := by
  have hs : 0 ≤ rate * dt := mul_nonneg hr hd
  unfold interpStep rclamp
  rcases le_total l t with hlt | hlt <;>
    rw [min_def, max_def] <;> split_ifs <;> constructor <;> linarith

theorem interp_exact (l t rate dt : ℚ) (h : |t - l| ≤ rate * dt) :
    interpStep l t rate dt = t := by
  rw [abs_le] at h
  unfold interpStep rclamp
  split_ifs <;> linarith

theorem interp_fixed (t rate dt : ℚ) (hr : 0 ≤ rate) (hd : 0 ≤ dt) :
    interpStep t t rate dt = t := by
  have hs : 0 ≤ rate * dt := mul_nonneg hr hd
  unfold interpStep rclamp
  split_ifs <;> linarith

theorem interp_range (l t rate dt lo hi : ℚ) (hr : 0 ≤ rate) (hd : 0 ≤ dt)
    (h1 : lo ≤ l) (h2 : l ≤ hi) (h3 : lo ≤ t) (h4 : t ≤ hi) :
    lo ≤ interpStep l t rate dt ∧ interpStep l t rate dt ≤ hi := by
  obtain ⟨ha, hb⟩ := interp_between l t rate dt hr hd
  exact ⟨le_trans (le_min h1 h3) ha, le_trans hb (max_le h2 h4)⟩

theorem hex2_lt (c : Char) (v : ℕ) (h : hex2 c = some v) : v < 16 := by
  simp only [hex2] at h
  split_ifs at h with h1 h2 h3
  · injection h with hv; omega
  · injection h with hv; omega
  · injection h with hv; omega

theorem hexPair_lt (x y : ℕ) (hx : x < 16) (hy : y < 16) : x <<< 4 ||| y < 256 := by
  have h1 : x <<< 4 < 2 ^ 8 := by
    rw [Nat.shiftLeft_eq]
    norm_num
    omega
  have h2 : y < 2 ^ 8 := by norm_num; omega
  have h3 := Nat.or_lt_two_pow h1 h2
  norm_num at h3
  exact h3

theorem byte01 (n : ℕ) (h : n < 256) : 0 ≤ (n : ℚ) / 255 ∧ (n : ℚ) / 255 ≤ 1 := by
  constructor
  · positivity
  · rw [div_le_one (by norm_num : (0 : ℚ) < 255)]
    have hn : n ≤ 255 := by omega
    exact_mod_cast hn

theorem heat_mem (x : ℚ) : rgb01 (heat_colour_to_bg x) := by
  obtain ⟨h1, h2⟩ := rclamp_mem x 0 100 (by norm_num)
  unfold rgb01
  simp only [heat_colour_to_bg]
  split_ifs with ha hb <;> refine ⟨?_, ?_, ?_, ?_, ?_, ?_⟩ <;> dsimp only <;> linarith

theorem rgb01_white : rgb01 ((1 : ℚ), (1 : ℚ), (1 : ℚ)) := by
  unfold rgb01
  norm_num

theorem hex6_mem (g : List Char) (rgb : ℚ × ℚ × ℚ)
    (h : hex6 g = some rgb) : rgb01 rgb := by
  unfold hex6 at h
  split at h
  · split at h <;> try contradiction
    split at h <;> try contradiction
    split at h <;> try contradiction
    split at h <;> try contradiction
    split at h <;> try contradiction
    split at h <;> try contradiction
    rename_i a1 a2 b1 b2 c1 c2 o1 r1 e1 o2 r2 e2 o3 g1 e3 o4 g2 e4 o5 v1 e5 o6 v2 e6
    injection h with hv
    subst hv
    obtain ⟨hR1, hR2⟩ := byte01 (r1 <<< 4 ||| r2)
      (hexPair_lt r1 r2 (hex2_lt a1 r1 e1) (hex2_lt a2 r2 e2))
    obtain ⟨hG1, hG2⟩ := byte01 (g1 <<< 4 ||| g2)
      (hexPair_lt g1 g2 (hex2_lt b1 g1 e3) (hex2_lt b2 g2 e4))
    obtain ⟨hB1, hB2⟩ := byte01 (v1 <<< 4 ||| v2)
      (hexPair_lt v1 v2 (hex2_lt c1 v1 e5) (hex2_lt c2 v2 e6))
    exact ⟨hR1, hR2, hG1, hG2, hB1, hB2⟩
  · contradiction

theorem parse_hex_mem (hx : List Char) (rgb : ℚ × ℚ × ℚ)
    (h : parse_hex_color hx = some rgb) : rgb01 rgb := by
  unfold parse_hex_color at h
  split at h
  · exact hex6_mem _ rgb h
  · exact hex6_mem _ rgb h

/-! Range preservation of the handler steps for width, percent and the colors. -/

theorem applyModeF_inv (b : List Char) (s : TargetState) (h : InvWPC s) :
    InvWPC (applyModeF b s) := by
  unfold applyModeF; cases extract_json_string b keyMode <;> exact h

theorem applyColourF_inv (b : List Char) (s : TargetState) (h : InvWPC s) :
    InvWPC (applyColourF b s) := by
  unfold applyColourF; cases extract_json_number b keyColour <;> exact h

theorem applyGeomF_inv (b : List Char) (s : TargetState) (h : InvWPC s) :
    InvWPC (applyGeomF b s) := by
  unfold applyGeomF
  cases extract_json_string b keyGeometry with
  | none => exact h
  | some g => dsimp only; split_ifs <;> exact h

theorem applySegF_inv (b : List Char) (s : TargetState) (h : InvWPC s) :
    InvWPC (applySegF b s) := by
  unfold applySegF; cases extract_json_array_floats b keySegments 10 <;> exact h

theorem applyWidthF_inv (b : List Char) (s : TargetState) (h : InvWPC s) :
    InvWPC (applyWidthF b s) := by
  unfold applyWidthF
  cases extract_json_number b keyWidth with
  | none => exact h
  | some w =>
    obtain ⟨hw1, hw2⟩ := rclamp_mem w 0 100 (by norm_num)
    obtain ⟨a1, a2, a3, a4, a5, a6⟩ := h
    exact ⟨hw1, hw2, a3, a4, a5, a6⟩

theorem applyPctF_inv (b : List Char) (s : TargetState) (h : InvWPC s) :
    InvWPC (applyPctF b s) := by
  unfold applyPctF
  cases extract_json_number b keyPercent with
  | none => exact h
  | some p =>
    obtain ⟨hp1, hp2⟩ := rclamp_mem p 0 1 (by norm_num)
    obtain ⟨a1, a2, a3, a4, a5, a6⟩ := h
    exact ⟨a1, a2, hp1, hp2, a5, a6⟩

theorem applyElemF_inv (b : List Char) (s : TargetState) (h : InvWPC s) :
    InvWPC (applyElemF b s) := by
  unfold applyElemF
  cases extract_json_string b keyElementColor with
  | none => exact h
  | some hx =>
    dsimp only
    cases hP : parse_hex_color hx with
    | none => exact h
    | some rgb =>
      obtain ⟨a1, a2, a3, a4, a5, a6⟩ := h
      exact ⟨a1, a2, a3, a4, parse_hex_mem hx rgb hP, a6⟩

theorem applyBgF_inv (b : List Char) (s : TargetState) (h : InvWPC s) :
    InvWPC (applyBgF b s) := by
  unfold applyBgF
  cases extract_json_string b keyBackgroundColor with
  | none => exact h
  | some hx =>
    dsimp only
    cases hP : parse_hex_color hx with
    | none => exact h
    | some rgb =>
      obtain ⟨a1, a2, a3, a4, a5, a6⟩ := h
      exact ⟨a1, a2, a3, a4, a5, parse_hex_mem hx rgb hP⟩

theorem applyEnforce_inv (b : List Char) (s : TargetState) (h : InvWPC s) :
    InvWPC (applyEnforce b s) := by
  unfold applyEnforce
  obtain ⟨a1, a2, a3, a4, a5, a6⟩ := h
  split_ifs with h1 h2 h3
  · exact ⟨a1, a2, a3, a4, rgb01_white, a6⟩
  · exact ⟨a1, a2, a3, a4, rgb01_white, heat_mem s.tcolourLevel⟩
  · exact ⟨a1, a2, a3, a4, a5, heat_mem s.tcolourLevel⟩
  · exact ⟨a1, a2, a3, a4, a5, a6⟩

/-! Facts about the full reconcile chain and the fields of the update result. -/

theorem update_snd_fields (s : TargetState) (b : List Char) (now : ℚ) :
    (update s b now).snd.tmodeStr = (reconcile b s).tmodeStr ∧
    (update s b now).snd.tgeometryMode = (reconcile b s).tgeometryMode ∧
    (update s b now).snd.tgeomStr = (reconcile b s).tgeomStr ∧
    (update s b now).snd.tcolourLevel = (reconcile b s).tcolourLevel ∧
    (update s b now).snd.telementColorRGB = (reconcile b s).telementColorRGB ∧
    (update s b now).snd.thaveElementColor = (reconcile b s).thaveElementColor ∧
    (update s b now).snd.tbackgroundColorRGB = (reconcile b s).tbackgroundColorRGB ∧
    (update s b now).snd.thaveBackgroundColor = (reconcile b s).thaveBackgroundColor := by
  rw [update_snd_eq]
  split <;> exact ⟨rfl, rfl, rfl, rfl, rfl, rfl, rfl, rfl⟩

theorem reconcile_heat (b : List Char) (s : TargetState)
    (h : (reconcile b s).tmodeStr = strHeat) :
    (reconcile b s).tgeometryMode = 0 ∧ (reconcile b s).tgeomStr = strRing ∧
    (reconcile b s).telementColorRGB = ((1 : ℚ), (1 : ℚ), (1 : ℚ)) ∧
    (reconcile b s).thaveElementColor = true := by
  unfold reconcile at h ⊢
  rw [applyEnforce_tmodeStr] at h
  exact applyEnforce_heat b _ h

theorem reconcile_heat_nobg (b : List Char) (s : TargetState)
    (h : (reconcile b s).tmodeStr = strHeat) (hbg : gotBgB b = false) :
    (reconcile b s).tbackgroundColorRGB = heat_colour_to_bg (reconcile b s).tcolourLevel ∧
    (reconcile b s).thaveBackgroundColor = true := by
  unfold reconcile at h ⊢
  rw [applyEnforce_tmodeStr] at h
  obtain ⟨hb1, hb2⟩ := applyEnforce_heat_nobg b _ h hbg
  refine ⟨?_, hb2⟩
  rw [hb1, applyEnforce_tcolourLevel]

theorem reconcile_heat_gotbg (b : List Char) (s : TargetState) (hx : List Char)
    (rgb : ℚ × ℚ × ℚ) (h : (reconcile b s).tmodeStr = strHeat)
    (h1 : extract_json_string b keyBackgroundColor = some hx)
    (h2 : parse_hex_color hx = some rgb) :
    (reconcile b s).tbackgroundColorRGB = rgb := by
  unfold reconcile at h ⊢
  rw [applyEnforce_tmodeStr] at h
  obtain ⟨hb1, _⟩ := applyEnforce_heat_gotbg b _ h (gotBgB_of_parse b hx rgb h1 h2)
  rw [hb1]
  exact (applyBgF_got b _ hx rgb h1 h2).1

theorem reconcile_custom_colour (b : List Char) (s : TargetState) (c : ℚ)
    (h : (reconcile b s).tmodeStr ≠ strHeat)
    (hc : extract_json_number b keyColour = some c) (hbg : gotBgB b = false) :
    (reconcile b s).tbackgroundColorRGB = heat_colour_to_bg c ∧
    (reconcile b s).thaveBackgroundColor = true := by
  unfold reconcile at h ⊢
  rw [applyEnforce_tmodeStr] at h
  have hgc : gotColourB b = true := by unfold gotColourB; rw [hc]; rfl
  obtain ⟨hb1, hb2⟩ := applyEnforce_custom_colour b _ h hbg hgc
  refine ⟨?_, hb2⟩
  rw [hb1]
  congr 1
  rw [applyBgF_tcolourLevel, applyElemF_tcolourLevel, applyPctF_tcolourLevel,
      applyWidthF_tcolourLevel, applySegF_tcolourLevel, applyGeomF_tcolourLevel]
  exact applyColourF_set b _ c hc

theorem reconcile_custom_nobg (b : List Char) (s : TargetState)
    (h : (reconcile b s).tmodeStr ≠ strHeat)
    (hc : extract_json_number b keyColour = none) (hbg : gotBgB b = false) :
    (reconcile b s).tbackgroundColorRGB = s.tbackgroundColorRGB := by
  unfold reconcile at h ⊢
  rw [applyEnforce_tmodeStr] at h
  have hgc : gotColourB b = false := by unfold gotColourB; rw [hc]; rfl
  rw [applyEnforce_custom_nobg b _ h hbg hgc, applyBgF_id b _ hbg,
      applyElemF_tbackgroundColorRGB, applyPctF_tbackgroundColorRGB,
      applyWidthF_tbackgroundColorRGB, applySegF_tbackgroundColorRGB,
      applyGeomF_tbackgroundColorRGB, applyColourF_tbackgroundColorRGB,
      applyModeF_tbackgroundColorRGB]

/-! The claims. -/

/-- Claim C1, counterexample: the raw body carrying only a geometry value that
names no known shape has zero recognized fields under the claim's counting
(a geometry value naming no known shape counts as absent), yet the handler
accepts it with OK, because the handler sets its any flag for every geometry
string whether or not it names a shape. -/
theorem claim1_cex : recognizedFieldSpec bodyGeomBlob = false ∧
    (update initState bodyGeomBlob 0).fst = UpdateResult.accepted := by
  with_unfolding_all decide

/-- Claim C1, amended: the update is rejected with no-valid-fields exactly when
the body yields zero handler-recognized fields, where a geometry key whose
value parses as a string counts as recognized even when it names no known
shape (the stored geometry is left unchanged in that case); every field that
is recognized under the claim's stricter counting is also handler-recognized,
so a command with at least one strictly recognized field is still accepted. -/
theorem claim1_thm (s : TargetState) (b : List Char) (now : ℚ) :
    ((update s b now).fst = UpdateResult.rejected ↔ hasAnyField b = false) ∧
    (recognizedFieldSpec b = true → hasAnyField b = true) := by
  constructor
  · exact update_rejected_iff s b now
  · intro h
    unfold recognizedFieldSpec at h
    unfold hasAnyField
    cases hE : extract_json_string b keyGeometry with
    | none => rw [hE] at h; simpa using h
    | some g => rw [hE] at h; simp

/-- Claim C1, witness: a body with a recognized mode and colour is accepted,
and the equivalence applies to it. -/
theorem claim1_witness :
    ((update initState bodyHeat15 0).fst = UpdateResult.rejected ↔
      hasAnyField bodyHeat15 = false) ∧
    hasAnyField bodyHeat15 = true :=
  ⟨(claim1_thm initState bodyHeat15 0).1, (claim1_thm initState bodyHeat15 0).2 (by with_unfolding_all decide)⟩

/-- Claim C2, counterexample: starting from the state produced by an accepted
heat command with an explicit background color, the empty body is rejected
with no-valid-fields, yet the call overwrites the target background color
(the heat enforcement block runs before the any check). -/
theorem claim2_cex :
    (update (update initState bodyHeatBg 0).snd bodyEmpty 1).fst = UpdateResult.rejected ∧
    ¬((update (update initState bodyHeatBg 0).snd bodyEmpty 1).snd.tbackgroundColorRGB
        = (update initState bodyHeatBg 0).snd.tbackgroundColorRGB) := by
  with_unfolding_all decide

/-- Claim C2, amended: a rejected command always leaves mode, colour level,
width, percent and the last-update timestamp unchanged, and leaves the whole
state unchanged when the prior mode is not heat and no segments key is found;
however, when the prior mode is heat the enforcement block still runs before
the rejection check (overwriting geometry, element color, background color and
their flags), and a segments array failing mid-parse keeps its already-parsed
prefix written. -/
theorem claim2_thm (s : TargetState) (b : List Char) (now : ℚ)
    (h : (update s b now).fst = UpdateResult.rejected) :
    ((update s b now).snd.tmodeStr = s.tmodeStr ∧
     (update s b now).snd.tcolourLevel = s.tcolourLevel ∧
     (update s b now).snd.telementWidth = s.telementWidth ∧
     (update s b now).snd.tpercent = s.tpercent ∧
     (update s b now).snd.updateTime = s.updateTime) ∧
    (s.tmodeStr ≠ strHeat → extract_json_array_floats b keySegments 10 = SegParse.noKey →
      (update s b now).snd = s) := by
  have hA : hasAnyField b = false := (update_rejected_iff s b now).1 h
  obtain ⟨hm, hc, hg, hsg, hw, hp, he, hbg⟩ := hasAnyField_false_parts b hA
  have hcn : extract_json_number b keyColour = none := isSome_false_none hc
  have hsnd : (update s b now).snd = applyEnforce b (applySegF b s) := by
    rw [update_snd_eq, hA]
    simp only [Bool.false_eq_true, if_false]
    unfold reconcile
    rw [applyModeF_id b s hm, applyColourF_id b _ hcn, applyGeomF_id b _ hg,
        applyWidthF_id b _ hw, applyPctF_id b _ hp, applyElemF_id b _ he,
        applyBgF_id b _ hbg]
  constructor
  · rw [hsnd]
    simp
  · intro hne hnk
    rw [hsnd, applySegF_id b s hnk, applyEnforce_id b s hne hc]

/-- Claim C2, witness: from a custom-mode state, the rejected empty body
leaves the state exactly unchanged. -/
theorem claim2_witness :
    (update (update initState bodyCustomMode 0).snd bodyEmpty 0).snd
        = (update initState bodyCustomMode 0).snd ∧
    (update (update initState bodyCustomMode 0).snd bodyEmpty 0).snd.tmodeStr
        = (update initState bodyCustomMode 0).snd.tmodeStr :=
  ⟨(claim2_thm _ bodyEmpty 0 (by with_unfolding_all decide)).2 (by with_unfolding_all decide) (by with_unfolding_all decide),
   ((claim2_thm _ bodyEmpty 0 (by with_unfolding_all decide)).1).1⟩

/-- Claim C3: after every accepted command whose resulting mode is heat, the
target geometry is ring (id 0) and the target element color is exactly pure
white, with the explicit-element-color flag set — the enforcement happens
inside the mutation itself. -/
theorem claim3_thm (s : TargetState) (b : List Char) (now : ℚ)
    (hacc : (update s b now).fst = UpdateResult.accepted)
    (hmode : (update s b now).snd.tmodeStr = strHeat) :
    (update s b now).snd.tgeometryMode = 0 ∧
    (update s b now).snd.tgeomStr = strRing ∧
    (update s b now).snd.telementColorRGB = ((1 : ℚ), (1 : ℚ), (1 : ℚ)) ∧
    (update s b now).snd.thaveElementColor = true := by
  obtain ⟨f1, f2, f3, _, f5, f6, _, _⟩ := update_snd_fields s b now
  rw [f1] at hmode
  obtain ⟨g1, g2, g3, g4⟩ := reconcile_heat b s hmode
  exact ⟨f2.trans g1, f3.trans g2, f5.trans g3, f6.trans g4⟩

/-- Claim C3, witness: an accepted heat command that even requested an explicit
background color still ends with ring geometry and a white element. -/
theorem claim3_witness :
    (update initState bodyHeatBg 0).snd.tgeometryMode = 0 ∧
    (update initState bodyHeatBg 0).snd.tgeomStr = strRing ∧
    (update initState bodyHeatBg 0).snd.telementColorRGB = ((1 : ℚ), (1 : ℚ), (1 : ℚ)) ∧
    (update initState bodyHeatBg 0).snd.thaveElementColor = true :=
  claim3_thm initState bodyHeatBg 0 (by with_unfolding_all decide) (by with_unfolding_all decide)

/-- Claim C4: for every accepted command whose resulting mode is heat, if the
command did not itself supply a parseable explicit background color, the
resulting background color is the heat gradient of the resulting colour level
(which may come from an earlier command) and the background flag is set; if it
did supply one, that color is kept verbatim. -/
theorem claim4_thm (s : TargetState) (b : List Char) (now : ℚ)
    (hacc : (update s b now).fst = UpdateResult.accepted)
    (hmode : (update s b now).snd.tmodeStr = strHeat) :
    (gotBgB b = false →
      (update s b now).snd.tbackgroundColorRGB
          = heat_colour_to_bg (update s b now).snd.tcolourLevel ∧
      (update s b now).snd.thaveBackgroundColor = true) ∧
    (∀ hx rgb, extract_json_string b keyBackgroundColor = some hx →
      parse_hex_color hx = some rgb →
      (update s b now).snd.tbackgroundColorRGB = rgb) := by
  obtain ⟨f1, _, _, f4, _, _, f7, f8⟩ := update_snd_fields s b now
  rw [f1] at hmode
  constructor
  · intro hbg
    obtain ⟨hb1, hb2⟩ := reconcile_heat_nobg b s hmode hbg
    exact ⟨f7.trans (hb1.trans (congrArg heat_colour_to_bg f4.symm)), f8.trans hb2⟩
  · intro hx rgb h1 h2
    exact f7.trans (reconcile_heat_gotbg b s hx rgb hmode h1 h2)

/-- Claim C4, witness: mode heat with colour 15 and no background color sets
the background to the gradient of the resulting colour level. -/
theorem claim4_witness :
    (update initState bodyHeat15 0).snd.tbackgroundColorRGB
        = heat_colour_to_bg (update initState bodyHeat15 0).snd.tcolourLevel ∧
    (update initState bodyHeat15 0).snd.thaveBackgroundColor = true :=
  (claim4_thm initState bodyHeat15 0 (by with_unfolding_all decide) (by with_unfolding_all decide)).1 (by with_unfolding_all decide)

/-- Claim C5: in custom mode, an accepted command supplying a colour level but
no explicit background color sets the background to the gradient of that
colour level (a one-shot derivation), and an accepted custom-mode command
supplying neither colour nor background color leaves the background color
unchanged. -/
theorem claim5_thm (s : TargetState) (b : List Char) (now : ℚ) :
    (∀ c : ℚ, (update s b now).fst = UpdateResult.accepted →
      (update s b now).snd.tmodeStr = strCustom →
      extract_json_number b keyColour = some c → gotBgB b = false →
      (update s b now).snd.tbackgroundColorRGB = heat_colour_to_bg c ∧
      (update s b now).snd.thaveBackgroundColor = true) ∧
    ((update s b now).fst = UpdateResult.accepted →
      (update s b now).snd.tmodeStr = strCustom →
      extract_json_number b keyColour = none → gotBgB b = false →
      (update s b now).snd.tbackgroundColorRGB = s.tbackgroundColorRGB) := by
  obtain ⟨f1, _, _, _, _, _, f7, f8⟩ := update_snd_fields s b now
  constructor
  · intro c hacc hmode hc hbg
    rw [f1] at hmode
    have hne : (reconcile b s).tmodeStr ≠ strHeat := by rw [hmode]; decide
    obtain ⟨hb1, hb2⟩ := reconcile_custom_colour b s c hne hc hbg
    exact ⟨f7.trans hb1, f8.trans hb2⟩
  · intro hacc hmode hc hbg
    rw [f1] at hmode
    have hne : (reconcile b s).tmodeStr ≠ strHeat := by rw [hmode]; decide
    exact f7.trans (reconcile_custom_nobg b s hne hc hbg)

/-- Claim C5, witness: custom mode with colour 80 derives the gradient once;
a follow-up command carrying only width leaves the background untouched. -/
theorem claim5_witness :
    ((update initState bodyCustom80 0).snd.tbackgroundColorRGB = heat_colour_to_bg 80 ∧
     (update initState bodyCustom80 0).snd.thaveBackgroundColor = true) ∧
    (update (update initState bodyCustom80 0).snd bodyWidthOnly 0).snd.tbackgroundColorRGB
        = (update initState bodyCustom80 0).snd.tbackgroundColorRGB :=
  ⟨(claim5_thm initState bodyCustom80 0).1 80 (by with_unfolding_all decide) (by with_unfolding_all decide) (by with_unfolding_all decide) (by with_unfolding_all decide),
   (claim5_thm _ bodyWidthOnly 0).2 (by with_unfolding_all decide) (by with_unfolding_all decide) (by with_unfolding_all decide) (by with_unfolding_all decide)⟩

/-- Claim C6, counterexample: a command with colour 150 is accepted and stores
the colour level unclamped, leaving the target colour level outside its
declared range 0..100. -/
theorem claim6_cex :
    (update initState bodyColour150 0).fst = UpdateResult.accepted ∧
    (update initState bodyColour150 0).snd.tcolourLevel = 150 ∧
    ¬((update initState bodyColour150 0).snd.tcolourLevel ≤ 100) := by
  with_unfolding_all decide

/-- Claim C6, amended: width, percent and every RGB channel of both colors of
the target state stay within their declared ranges across every update
(width/percent are clamped at acceptance, colors come from the hex parser or
the gradient, both of which produce channels in 0..1), and one interpolation
tick keeps the corresponding live fields in range as well; the colour level,
by contrast, is assigned unclamped and can leave 0..100. -/
theorem claim6_thm :
    (∀ (s : TargetState) (b : List Char) (now : ℚ),
      InvWPC s → InvWPC (update s b now).snd) ∧
    (∀ (ls : LiveState) (ts : TargetState) (d : ℚ),
      LInvWPC ls → InvWPC ts → LInvWPC (tickInterpolate ls ts d)) := by
  constructor
  · intro s b now h
    have hrec : InvWPC (reconcile b s) := by
      unfold reconcile
      exact applyEnforce_inv _ _ (applyBgF_inv _ _ (applyElemF_inv _ _ (applyPctF_inv _ _
        (applyWidthF_inv _ _ (applySegF_inv _ _ (applyGeomF_inv _ _ (applyColourF_inv _ _
          (applyModeF_inv _ _ h))))))))
    rw [update_snd_eq]
    split
    · exact hrec
    · exact hrec
  · intro ls ts d hL hT
    have hd : 0 ≤ rclamp d 0 (1/10) := (rclamp_mem d 0 (1/10) (by norm_num)).1
    have hA : (0 : ℚ) ≤ ANIMSTEP := by norm_num [ANIMSTEP]
    have h2 : (0 : ℚ) ≤ 2 := by norm_num
    obtain ⟨l1, l2, l3, l4, ⟨e1, e2, e3, e4, e5, e6⟩, ⟨v1, v2, v3, v4, v5, v6⟩⟩ := hL
    obtain ⟨t1, t2, t3, t4, ⟨w1, w2, w3, w4, w5, w6⟩, ⟨u1, u2, u3, u4, u5, u6⟩⟩ := hT
    unfold tickInterpolate LInvWPC rgb01
    dsimp only
    refine ⟨(interp_range _ _ _ _ _ _ hA hd l1 l2 t1 t2).1,
            (interp_range _ _ _ _ _ _ hA hd l1 l2 t1 t2).2,
            (interp_range _ _ _ _ _ _ hA hd l3 l4 t3 t4).1,
            (interp_range _ _ _ _ _ _ hA hd l3 l4 t3 t4).2,
            ⟨(interp_range _ _ _ _ _ _ h2 hd e1 e2 w1 w2).1,
             (interp_range _ _ _ _ _ _ h2 hd e1 e2 w1 w2).2,
             (interp_range _ _ _ _ _ _ h2 hd e3 e4 w3 w4).1,
             (interp_range _ _ _ _ _ _ h2 hd e3 e4 w3 w4).2,
             (interp_range _ _ _ _ _ _ h2 hd e5 e6 w5 w6).1,
             (interp_range _ _ _ _ _ _ h2 hd e5 e6 w5 w6).2⟩,
            ⟨(interp_range _ _ _ _ _ _ h2 hd v1 v2 u1 u2).1,
             (interp_range _ _ _ _ _ _ h2 hd v1 v2 u1 u2).2,
             (interp_range _ _ _ _ _ _ h2 hd v3 v4 u3 u4).1,
             (interp_range _ _ _ _ _ _ h2 hd v3 v4 u3 u4).2,
             (interp_range _ _ _ _ _ _ h2 hd v5 v6 u5 u6).1,
             (interp_range _ _ _ _ _ _ h2 hd v5 v6 u5 u6).2⟩⟩

/-- Claim C6, witness: the invariant holds at the initial states and is kept
by a rejected-empty update and by one tick. -/
theorem claim6_witness :
    InvWPC (update initState bodyEmpty 0).snd ∧
    LInvWPC (tickInterpolate initLive initState (1/40)) :=
  ⟨claim6_thm.1 initState bodyEmpty 0 (by with_unfolding_all decide),
   claim6_thm.2 initLive initState (1/40) (by with_unfolding_all decide) (by with_unfolding_all decide)⟩

/-- Claim C7, counterexample: the gradient is not continuous at level 33 —
the value at 33 is (0, 1/2, 4/5), while one thousandth above 33 the green
channel already exceeds 1/2 + 1/10 and the blue channel exceeds 4/5 + 1/10,
far beyond any floating tolerance. -/
theorem claim7_cex :
    (heat_colour_to_bg 33).2.1 = 1/2 ∧ (heat_colour_to_bg 33).2.2 = 4/5 ∧
    (heat_colour_to_bg 33).2.1 + 1/10 ≤ (heat_colour_to_bg (33 + 1/1000)).2.1 ∧
    (heat_colour_to_bg 33).2.2 + 1/10 ≤ (heat_colour_to_bg (33 + 1/1000)).2.2 := by
  with_unfolding_all decide

/-- Claim C7, amended: the gradient is continuous at level 66 — the middle
segment reaches exactly (1, 1, 0) at 66 and the upper segment departs from it
at rate ε/34 — but it is discontinuous at level 33, where the green channel
jumps by exactly 1/10 + (2/165)·ε for every approach step ε from above. -/
theorem claim7_thm :
    (∀ ε : ℚ, 0 < ε → ε ≤ 33 →
      (heat_colour_to_bg (33 + ε)).2.1 - (heat_colour_to_bg 33).2.1
        = 1/10 + (2/165) * ε) ∧
    heat_colour_to_bg 66 = (1, 1, 0) ∧
    (∀ ε : ℚ, 0 < ε → ε ≤ 34 →
      heat_colour_to_bg (66 + ε) = (1, 1 - ε/34, 0)) := by
  refine ⟨?_, by with_unfolding_all decide, ?_⟩
  · intro ε h1 h2
    have h33 : (heat_colour_to_bg 33).2.1 = 1/2 := by with_unfolding_all decide
    have hc : rclamp (33 + ε) 0 100 = 33 + ε := by
      unfold rclamp
      rw [if_neg (by linarith), if_neg (by linarith)]
    rw [h33]
    simp only [heat_colour_to_bg]
    rw [hc, if_neg (by linarith), if_pos (by linarith)]
    dsimp only
    ring
  · intro ε h1 h2
    have hc : rclamp (66 + ε) 0 100 = 66 + ε := by
      unfold rclamp
      rw [if_neg (by linarith), if_neg (by linarith)]
    simp only [heat_colour_to_bg]
    rw [hc, if_neg (by linarith), if_neg (by linarith)]
    rw [show (66 : ℚ) + ε - 66 = ε from by ring]

/-- Claim C7, witness: the jump formula applied one thousandth above 33, and
the exact value one thousandth above 66. -/
theorem claim7_witness :
    (heat_colour_to_bg (33 + 1/1000)).2.1 - (heat_colour_to_bg 33).2.1
        = 1/10 + (2/165) * (1/1000) ∧
    heat_colour_to_bg (66 + 1/1000) = (1, 1 - (1/1000)/34, 0) :=
  ⟨claim7_thm.1 (1/1000) (by norm_num) (by norm_num),
   claim7_thm.2.2 (1/1000) (by norm_num) (by norm_num)⟩

/-- Claim C8: one interpolation assignment with elapsed time dt moves the live
value toward the target by at most rate·dt, never leaves the interval spanned
by the previous live value and the target, hits the target exactly as soon as
it is within rate·dt, and stays at the target thereafter; concretely,
live 0, target 100, rate 40, dt 1 yields 40, and the render tick applies this
assignment (with the clamped dt) to the colour level and every other
interpolated field. -/
theorem claim8_thm :
    (∀ live target rate dt : ℚ, 0 ≤ rate → 0 ≤ dt →
      |interpStep live target rate dt - live| ≤ rate * dt ∧
      min live target ≤ interpStep live target rate dt ∧
      interpStep live target rate dt ≤ max live target ∧
      (|target - live| ≤ rate * dt → interpStep live target rate dt = target) ∧
      interpStep target target rate dt = target) ∧
    interpStep 0 100 40 1 = 40 ∧
    (∀ (ls : LiveState) (ts : TargetState) (d : ℚ),
      (tickInterpolate ls ts d).colourLevel =
        interpStep ls.colourLevel ts.tcolourLevel ANIMSTEP (rclamp d 0 (1/10))) := by
  refine ⟨?_, by with_unfolding_all decide, fun ls ts d => rfl⟩
  intro l t rate dt hr hd
  obtain ⟨hb1, hb2⟩ := interp_between l t rate dt hr hd
  exact ⟨interp_dist l t rate dt hr hd, hb1, hb2,
         interp_exact l t rate dt, interp_fixed t rate dt hr hd⟩

/-- Claim C8, witness: the never-overshoot inequalities at live 0, target 100,
rate 40, dt 1, and the exact-hit at dt 3. -/
theorem claim8_witness :
    |interpStep 0 100 40 1 - 0| ≤ 40 * 1 ∧
    interpStep 0 100 40 3 = 100 :=
  ⟨(claim8_thm.1 0 100 40 1 (by norm_num) (by norm_num)).1,
   (claim8_thm.1 0 100 40 3 (by norm_num) (by norm_num)).2.2.2.1 (by with_unfolding_all decide)⟩

/-- Claim C10: field presence is a plain substring search on the raw text —
in the body whose only JSON members are note (with string value colour) and
width, the quoted word colour inside note's value position makes the handler
treat the colour field as present, and the first value-like text after that
occurrence (width's value 55) becomes the colour level. -/
theorem claim10_thm :
    strFind bodyNoteColour (quoteKey keyColour) = some 8 ∧
    extract_json_number bodyNoteColour keyColour = some 55 ∧
    extract_json_number bodyNoteColour keyWidth = some 55 ∧
    (update initState bodyNoteColour 0).fst = UpdateResult.accepted ∧
    (update initState bodyNoteColour 0).snd.tcolourLevel = 55 := by
  with_unfolding_all decide

end StatsGL
